import Mathlib

/-!
Shallow embedding of the PsychoPy alert/warning notification pipeline:
`psychopy/alerts/Alerts.py` and `psychopy/warnings.py`.

Conventions of the embedding:
* Python dictionaries keyed by integer codes become association lists
  (`List (Nat × _)`) with `List.lookup`; a failed key access (Python
  `KeyError`) or attribute access (`AttributeError`) is an explicit
  `PyError` value.
* Mutable module state (the shared `AlertLog` buffer, the master log file,
  the terminal) is threaded explicitly through an `AlertState` record; a
  `print` or file write appends to the corresponding list of lines.
* The `obj` / context argument is only ever displayed, so it is modelled by
  the string Python's `format` would render it as.
* `flush` additionally returns the ordered trace of its sink calls so the
  interleaving of file writes and terminal prints is observable.
-/

/-- Python exceptions raised by the embedded code. -/
inductive PyError where
  | keyError (k : Nat)
  | attributeError (a : String)
deriving DecidableEq, Repr

/-! ## Alerts.py -/

/-- One entry of the alerts catalogue yaml file: values of the keys
`code`, `cat`, `msg`, `url` (`Alerts.py` docstring and
`AlertEntry.__init__`). -/
structure CatEntry where
  code : Nat
  cat : String
  msg : String
  url : String
deriving DecidableEq, Repr

/-- Embedding of `catalogue.alert`: the loaded yaml mapping from alert code to entry,
as an association list. -/
def Catalogue : Type := List (Nat × CatEntry)

/-- Dictionary access `catalogue.alert[code]`. -/
def Catalogue.find (c : Catalogue) (code : Nat) : Option CatEntry :=
  List.lookup code c

/-- Embedding of `AlertEntry`: the alert data class (`Alerts.py`, class `AlertEntry`). -/
structure AlertEntry where
  name : String
  code : Nat
  cat : String
  msg : String
  url : String
  obj : String
deriving DecidableEq, Repr

/-- Embedding of `AlertEntry.__init__(name, code, obj)`: resolves `code` against the
catalogue, copying the entry's `code`, `cat`, `msg` and `url` fields;
a missing code raises `KeyError` before any field is assigned. -/
def AlertEntry.create (c : Catalogue) (name : String) (code : Nat)
    (obj : String) : Option AlertEntry :=
  match c.find code with
  | some e => some { name := name, code := e.code, cat := e.cat,
                     msg := e.msg, url := e.url, obj := obj }
  | none => none

/-- The format string built inside `AlertLog.flush` for one entry. -/
def formatAlert (i : AlertEntry) : String :=
  "AlertLogger: " ++ i.name ++ " | Code: " ++ toString i.code ++
    " | Category: " ++ i.cat ++ " | Message: " ++ i.msg ++
    " | Component: " ++ i.obj

/-- The mutable module-level state touched by the alert pipeline: the
shared `root.alertLog` buffer, the lines appended so far to the current
process's master log file (`master.write`), and the lines printed to the
terminal (`print`). -/
structure AlertState where
  alertLog : List AlertEntry
  masterFile : List String
  terminal : List String
deriving DecidableEq, Repr

/-- One sink call made during `AlertLog.flush`: `master.write(msg)` or
`print(msg)`. -/
inductive FlushEvent where
  | masterWrite (msg : String)
  | terminalPrint (msg : String)
deriving DecidableEq, Repr

/-- Embedding of `AlertLog.write(alert)`: append to the `alertLog` container. -/
def AlertLog.write (s : AlertState) (alert : AlertEntry) : AlertState :=
  { s with alertLog := s.alertLog ++ [alert] }

/-- One iteration of the `for i in self.alertLog` loop of
`AlertLog.flush`: format the entry, `master.write(msg)`, then
`print(msg)`; the trace records the two sink calls in that order. -/
def flushStep (acc : AlertState × List FlushEvent) (i : AlertEntry) :
    AlertState × List FlushEvent :=
  let msg := formatAlert i
  let s1 := { acc.1 with masterFile := acc.1.masterFile ++ [msg] }
  let s2 := { s1 with terminal := s1.terminal ++ [msg] }
  (s2, acc.2 ++ [FlushEvent.masterWrite msg, FlushEvent.terminalPrint msg])

/-- Embedding of `AlertLog.flush()`: iterate over the buffered entries emitting to the
master log and the terminal, then reset `alertLog` to `[]`. -/
def AlertLog.flush (s : AlertState) : AlertState × List FlushEvent :=
  let r := s.alertLog.foldl flushStep (s, [])
  ({ r.1 with alertLog := [] }, r.2)

/-- Embedding of `AlertLogger.write(code, obj)` for a logger named `name`:
`root.write(AlertEntry(self.name, code, obj))`.  The `AlertEntry`
constructor runs first, so an unknown code raises before anything is
appended; the pair returns the (possibly unchanged) state and the raised
exception, if any. -/
def AlertLogger.write (c : Catalogue) (name : String) (code : Nat)
    (obj : String) (s : AlertState) : AlertState × Option PyError :=
  match AlertEntry.create c name code obj with
  | some e => (AlertLog.write s e, none)
  | none => (s, some (PyError.keyError code))

/-! ### MasterLog construction and rotation

`MasterLog.__init__` works on the log directory.  We model the directory
by the listing of its `*.log` filenames in glob order (`logs[0]` is the
head), with `none` standing for a directory that does not exist yet. -/

/-- Embedding of `MasterLog.__init__`: if the folder is missing, create it (empty);
otherwise, if it already holds at least 5 log files, `os.remove(logs[0])`
deletes the first file of the listing.  Returns the directory listing
after construction. -/
def MasterLog.init (folder : Option (List String)) : List String :=
  match folder with
  | none => []
  | some logs => if 5 ≤ logs.length then logs.tail else logs

/-- A whole write session of one process run: construct the `MasterLog`,
then `MasterLog.write` opens `self.alertLogFile` with mode `a+`, creating
the run's file (named with the construction timestamp) unless a file of
that name already exists. -/
def MasterLog.afterWriteSession (folder : Option (List String))
    (newFile : String) : List String :=
  let files := MasterLog.init folder
  if newFile ∈ files then files else files ++ [newFile]

/-- The directory contents produced by a sequence of previous process
runs, starting from a missing folder (first run creates it empty), each
run named by the timestamped filename it would write. -/
def MasterLog.runAll (names : List String) : List String :=
  names.foldl (fun logs n => MasterLog.afterWriteSession (some logs) n) []

/-! ## warnings.py -/

/-- One entry of `psychopy.warnings.stdWarnings`: keys `msg` and `info`. -/
structure StdWarning where
  msg : String
  info : String
deriving DecidableEq, Repr

/-- The `stdWarnings` dictionary, as an association list. -/
def StdWarnings : Type := List (Nat × StdWarning)

def StdWarnings.find (w : StdWarnings) (code : Nat) : Option StdWarning :=
  List.lookup code w

/-- One observable effect of `warn`: a `logging.warning` line, a
`logging.debug` line, or the structured hand-off
`sys.stderr.receiveWarning(code, obj, msg, trace)`. -/
inductive LogEvent where
  | warning (s : String)
  | debug (s : String)
  | received (code : Nat) (obj : Option String) (msg : String)
      (trace : List String)
deriving DecidableEq, Repr

/-- Embedding of `if not msg: msg = stdWarnings[code]['msg']`: resolves the message,
failing (KeyError) when no override is given and the code is unknown. -/
def resolveMsg (w : StdWarnings) (code : Nat) (msg : String) :
    Option String :=
  if msg = "" then (w.find code).map (fun e => e.msg) else some msg

/-- Embedding of `if not trace: trace = traceback.format_stack()[:-1]`; `stack` is
the stack the traceback module would capture at the call site. -/
def resolveTrace (stack : List String) (trace : List String) :
    List String :=
  if trace = [] then stack else trace

/-- The one-line summary `'%s: %s' % (code, msg)` built by `warn`. -/
def warnStr (code : Nat) (msg : String) : String :=
  toString code ++ ": " ++ msg

/-- The traceback block `'Warning trace (%s):\n' % code` followed by the
concatenated trace entries. -/
def traceStr (code : Nat) (trace : List String) : String :=
  "Warning trace (" ++ toString code ++ "):\n" ++ String.join trace

/-- Embedding of `warn(code, obj, msg, trace)`.  `hasReceiveWarning` is the result of
`hasattr(sys.stderr, 'receiveWarning')`; `stack` is the current call
stack (already without the `warn` frame).  Returns the ordered list of
emitted events and the raised exception, if any. -/
def warn (w : StdWarnings) (hasReceiveWarning : Bool)
    (stack : List String) (code : Nat) (obj : Option String)
    (msg : String) (trace : List String) :
    List LogEvent × Option PyError :=
  match resolveMsg w code msg with
  | none => ([], some (PyError.keyError code))
  | some m =>
    let tr := resolveTrace stack trace
    if hasReceiveWarning then
      ([LogEvent.received code obj m tr], none)
    else
      ([LogEvent.warning (warnStr code m), LogEvent.debug (traceStr code tr)],
        none)

/-! ### `_BaseErrorHandler` -/

/-- An element of a handler's `errList`: either a raw string appended by
`write` or the structured dict appended by `receiveWarning`. -/
inductive ErrItem where
  | str (s : String)
  | record (code : Nat) (obj : Option String) (msg : String)
      (trace : List String)
deriving DecidableEq, Repr

/-- A standard-error target: the handler instance under consideration, or
any other stream (tagged by a number). -/
inductive Target where
  | handlerT
  | otherT (n : Nat)
deriving DecidableEq, Repr

/-- The state of a `_BaseErrorHandler` instance: `errList` and
`autoFlush` are assigned in `__init__`; `origErr` is the attribute
assigned by `setStdErr` (absent, i.e. `none`, until then — accessing it
before raises `AttributeError`). -/
structure Handler where
  errList : List ErrItem
  autoFlush : Bool
  origErr : Option Target
deriving DecidableEq, Repr

/-- Embedding of `_BaseErrorHandler.__init__`. -/
def Handler.init : Handler :=
  { errList := [], autoFlush := true, origErr := none }

/-- Embedding of `flush()`: print each element of `errList` in order, then reset it to
`[]` (the `hasattr(self, 'errList')` guard is always true here, since
`errList` is assigned in `__init__` and only ever reassigned).  Returns
the new handler state and the printed items. -/
def Handler.flush (h : Handler) : Handler × List ErrItem :=
  ({ h with errList := [] }, h.errList)

/-- Embedding of `receiveWarning(code, obj, msg, trace)`: append the structured
record to `errList`. -/
def Handler.receiveWarning (h : Handler) (code : Nat) (obj : Option String)
    (msg : String) (trace : List String) : Handler :=
  { h with errList := h.errList ++ [ErrItem.record code obj msg trace] }

/-- Embedding of `write(toWrite)`: append the raw text to `errList`; then, if
`autoFlush` is set, call `flush()`.  Returns the new handler state and
the items printed by the embedded flush (empty when no flush ran). -/
def Handler.write (h : Handler) (toWrite : String) :
    Handler × List ErrItem :=
  let h1 := { h with errList := h.errList ++ [ErrItem.str toWrite] }
  if h1.autoFlush then h1.flush else (h1, [])

/-- The handler together with the process's `sys.stderr`. -/
structure ErrSys where
  stderr : Target
  handler : Handler
deriving DecidableEq, Repr

/-- Embedding of `setStdErr()`: `self.origErr = sys.stderr; sys.stderr = self`. -/
def ErrSys.setStdErr (s : ErrSys) : ErrSys :=
  { stderr := Target.handlerT,
    handler := { s.handler with origErr := some s.stderr } }

/-- Embedding of `unsetStdErr()`: `if self == sys.stderr: sys.stderr = self.origErr`.
Reading `self.origErr` before any `setStdErr` raises `AttributeError`. -/
def ErrSys.unsetStdErr (s : ErrSys) : Except PyError ErrSys :=
  if s.stderr = Target.handlerT then
    match s.handler.origErr with
    | some t => Except.ok { s with stderr := t }
    | none => Except.error (PyError.attributeError "origErr")
  else
    Except.ok s

/-- Embedding of `__del__()`: `self.flush(); self.unsetStdErr()` — no exception
handling of its own, so a failure of `unsetStdErr` propagates.  On
success returns the final state and the items printed by the flush. -/
def ErrSys.del (s : ErrSys) : Except PyError (ErrSys × List ErrItem) :=
  let p := s.handler.flush
  match ErrSys.unsetStdErr { s with handler := p.1 } with
  | Except.ok s1 => Except.ok (s1, p.2)
  | Except.error e => Except.error e

/-! ## Helper lemmas -/

/-- Unrolled specification of the `flush` loop: folding `flushStep` over
a list of entries appends one formatted line per entry to each sink and
records, per entry, the master write followed by the terminal print. -/
theorem flushStep_foldl (l : List AlertEntry) (s : AlertState)
    (evs : List FlushEvent) :
    l.foldl flushStep (s, evs) =
      ({ s with masterFile := s.masterFile ++ l.map formatAlert,
                terminal := s.terminal ++ l.map formatAlert },
        evs ++ l.flatMap (fun i => [FlushEvent.masterWrite (formatAlert i),
                                 FlushEvent.terminalPrint (formatAlert i)])) := by
  induction l generalizing s evs with
  | nil => simp
  | cons a t ih =>
      simp only [List.foldl_cons, flushStep, ih, List.map_cons,
        List.flatMap_cons, List.append_assoc, List.cons_append,
        List.nil_append, List.singleton_append]

/-- Closed form of `AlertLog.flush`. -/
theorem AlertLog.flush_eq (s : AlertState) :
    AlertLog.flush s =
      ({ alertLog := [],
         masterFile := s.masterFile ++ s.alertLog.map formatAlert,
         terminal := s.terminal ++ s.alertLog.map formatAlert },
        s.alertLog.flatMap (fun i => [FlushEvent.masterWrite (formatAlert i),
                                   FlushEvent.terminalPrint (formatAlert i)])) := by
  unfold AlertLog.flush
  rw [flushStep_foldl]
  rfl

/-! ## Claims -/


/-- C2: writing entries A, B, C to an empty AlertLog and flushing emits
one formatted line per entry, in insertion order A, B, C, each first to
the MasterLog file sink and then to the terminal sink, and leaves the
buffer empty. -/
theorem c2_flush_order (s : AlertState) (a b c : AlertEntry)
    (h : s.alertLog = []) :
    AlertLog.flush (AlertLog.write (AlertLog.write (AlertLog.write s a) b) c) =
      ({ alertLog := [],
         masterFile := s.masterFile ++ [formatAlert a, formatAlert b, formatAlert c],
         terminal := s.terminal ++ [formatAlert a, formatAlert b, formatAlert c] },
        [FlushEvent.masterWrite (formatAlert a), FlushEvent.terminalPrint (formatAlert a),
         FlushEvent.masterWrite (formatAlert b), FlushEvent.terminalPrint (formatAlert b),
         FlushEvent.masterWrite (formatAlert c), FlushEvent.terminalPrint (formatAlert c)]) := by
  simp [AlertLog.write, AlertLog.flush_eq, h]

/-- Witness for C2 at a concrete state and concrete entries. -/
theorem c2_flush_order_witness :
    AlertLog.flush (AlertLog.write (AlertLog.write (AlertLog.write
        { alertLog := [], masterFile := [], terminal := [] }
        { name := "Builder", code := 2001, cat := "Experiment", msg := "m1", url := "u1", obj := "TextComponent1" })
        { name := "Builder", code := 2002, cat := "Experiment", msg := "m2", url := "u2", obj := "TextComponent2" })
        { name := "Coder", code := 3001, cat := "App", msg := "m3", url := "u3", obj := "TextComponent3" }) =
      ({ alertLog := [],
         masterFile := [formatAlert { name := "Builder", code := 2001, cat := "Experiment", msg := "m1", url := "u1", obj := "TextComponent1" },
                        formatAlert { name := "Builder", code := 2002, cat := "Experiment", msg := "m2", url := "u2", obj := "TextComponent2" },
                        formatAlert { name := "Coder", code := 3001, cat := "App", msg := "m3", url := "u3", obj := "TextComponent3" }],
         terminal := [formatAlert { name := "Builder", code := 2001, cat := "Experiment", msg := "m1", url := "u1", obj := "TextComponent1" },
                      formatAlert { name := "Builder", code := 2002, cat := "Experiment", msg := "m2", url := "u2", obj := "TextComponent2" },
                      formatAlert { name := "Coder", code := 3001, cat := "App", msg := "m3", url := "u3", obj := "TextComponent3" }] },
        [FlushEvent.masterWrite (formatAlert { name := "Builder", code := 2001, cat := "Experiment", msg := "m1", url := "u1", obj := "TextComponent1" }),
         FlushEvent.terminalPrint (formatAlert { name := "Builder", code := 2001, cat := "Experiment", msg := "m1", url := "u1", obj := "TextComponent1" }),
         FlushEvent.masterWrite (formatAlert { name := "Builder", code := 2002, cat := "Experiment", msg := "m2", url := "u2", obj := "TextComponent2" }),
         FlushEvent.terminalPrint (formatAlert { name := "Builder", code := 2002, cat := "Experiment", msg := "m2", url := "u2", obj := "TextComponent2" }),
         FlushEvent.masterWrite (formatAlert { name := "Coder", code := 3001, cat := "App", msg := "m3", url := "u3", obj := "TextComponent3" }),
         FlushEvent.terminalPrint (formatAlert { name := "Coder", code := 3001, cat := "App", msg := "m3", url := "u3", obj := "TextComponent3" })]) := by
  exact c2_flush_order { alertLog := [], masterFile := [], terminal := [] } _ _ _ rfl

/-- C8: flushing an empty AlertLog is a no-op (no file writes, no
terminal output, state unchanged), and a second flush immediately after
any flush likewise performs no writes and emits nothing. -/
theorem c8_flush_empty_noop (s : AlertState) :
    (s.alertLog = [] → AlertLog.flush s = (s, [])) ∧
      AlertLog.flush (AlertLog.flush s).1 = ((AlertLog.flush s).1, []) := by
  cases s with
  | mk log mf term =>
      constructor
      · intro h
        subst h
        simp [AlertLog.flush_eq]
      · simp [AlertLog.flush_eq]

/-- Witness for C8 at a concrete state with an empty buffer. -/
theorem c8_flush_empty_noop_witness :
    AlertLog.flush { alertLog := [], masterFile := ["old"], terminal := [] } =
      ({ alertLog := [], masterFile := ["old"], terminal := [] }, []) :=
  (c8_flush_empty_noop { alertLog := [], masterFile := ["old"], terminal := [] }).1 rfl

/-- C7: for every code present in the catalogue, the constructed
`AlertEntry`'s category, message and URL fields equal the catalogue
entry's. -/
theorem c7_entry_matches_catalogue (c : Catalogue) (name : String)
    (code : Nat) (obj : String) (e : CatEntry) (h : c.find code = some e) :
    ∃ a, AlertEntry.create c name code obj = some a ∧
      a.cat = e.cat ∧ a.msg = e.msg ∧ a.url = e.url := by
  refine ⟨{ name := name, code := e.code, cat := e.cat, msg := e.msg,
            url := e.url, obj := obj }, ?_, rfl, rfl, rfl⟩
  simp [AlertEntry.create, h]

/-- Witness for C7 on a concrete one-entry catalogue. -/
theorem c7_entry_matches_catalogue_witness :
    Catalogue.find [(4051, { code := 4051, cat := "Experiment", msg := "Experiment was built in a future version of PsychoPy", url := "" })] 4051 =
        some { code := 4051, cat := "Experiment", msg := "Experiment was built in a future version of PsychoPy", url := "" } ∧
      ∃ a, AlertEntry.create [(4051, { code := 4051, cat := "Experiment", msg := "Experiment was built in a future version of PsychoPy", url := "" })] "Builder" 4051 "comp" = some a ∧
        a.cat = "Experiment" ∧ a.msg = "Experiment was built in a future version of PsychoPy" ∧ a.url = "" :=
  ⟨rfl, c7_entry_matches_catalogue
    [(4051, { code := 4051, cat := "Experiment", msg := "Experiment was built in a future version of PsychoPy", url := "" })]
    "Builder" 4051 "comp"
    { code := 4051, cat := "Experiment", msg := "Experiment was built in a future version of PsychoPy", url := "" }
    rfl⟩

/-- C3: for a code absent from the relevant catalogue, `AlertEntry`
construction fails, `AlertLogger.write` raises `KeyError` leaving the
alert state (buffer, master file, terminal) unchanged, and `warn` with
no override message raises `KeyError` emitting no log events. -/
theorem c3_unknown_code_no_side_effects (c : Catalogue) (w : StdWarnings)
    (name : String) (code : Nat) (obj : String) (s : AlertState)
    (hrw : Bool) (stack : List String) (objw : Option String)
    (trace : List String)
    (hc : c.find code = none) (hw : w.find code = none) :
    AlertEntry.create c name code obj = none ∧
      AlertLogger.write c name code obj s = (s, some (PyError.keyError code)) ∧
      warn w hrw stack code objw "" trace = ([], some (PyError.keyError code)) := by
  refine ⟨?_, ?_, ?_⟩ <;>
    simp [AlertEntry.create, AlertLogger.write, warn, resolveMsg, hc, hw]

/-- Witness for C3: code 9999 is absent from both (concrete) catalogues. -/
theorem c3_unknown_code_no_side_effects_witness :
    Catalogue.find [(4051, { code := 4051, cat := "Experiment", msg := "m", url := "u" })] 9999 = none ∧
      StdWarnings.find [(2001, { msg := "You have a constant variable", info := "i" })] 9999 = none ∧
      AlertEntry.create [(4051, { code := 4051, cat := "Experiment", msg := "m", url := "u" })] "Builder" 9999 "comp" = none ∧
      AlertLogger.write [(4051, { code := 4051, cat := "Experiment", msg := "m", url := "u" })] "Builder" 9999 "comp" { alertLog := [], masterFile := [], terminal := [] } =
        ({ alertLog := [], masterFile := [], terminal := [] }, some (PyError.keyError 9999)) ∧
      warn [(2001, { msg := "You have a constant variable", info := "i" })] false ["frame"] 9999 none "" [] =
        ([], some (PyError.keyError 9999)) := by
  refine ⟨rfl, rfl, ?_⟩
  have h := c3_unknown_code_no_side_effects
    [(4051, { code := 4051, cat := "Experiment", msg := "m", url := "u" })]
    [(2001, { msg := "You have a constant variable", info := "i" })]
    "Builder" 9999 "comp" { alertLog := [], masterFile := [], terminal := [] }
    false ["frame"] none [] rfl rfl
  exact ⟨h.1, h.2.1, h.2.2⟩

/-- One write session keeps the log-file count at or below 5, provided
the directory held at most 5 log files beforehand. -/
theorem MasterLog.session_length_le (logs : List String) (f : String)
    (h : logs.length ≤ 5) :
    (MasterLog.afterWriteSession (some logs) f).length ≤ 5 := by
  unfold MasterLog.afterWriteSession MasterLog.init
  by_cases h5 : 5 ≤ logs.length
  · have htail : logs.tail.length = logs.length - 1 := List.length_tail logs
    simp only [h5, if_true]
    split
    · omega
    · simp only [List.length_append, List.length_singleton]
      omega
  · simp only [h5, if_false]
    split
    · omega
    · simp only [List.length_append, List.length_singleton]
      omega

/-- Any directory state produced by a sequence of previous process runs
holds at most 5 log files. -/
theorem MasterLog.runAll_length_le (names : List String) :
    (MasterLog.runAll names).length ≤ 5 := by
  unfold MasterLog.runAll
  suffices h : ∀ logs : List String, logs.length ≤ 5 →
      (names.foldl (fun l n => MasterLog.afterWriteSession (some l) n)
        logs).length ≤ 5 by
    exact h [] (by simp)
  induction names with
  | nil => intro logs hl; simpa using hl
  | cons n ns ih =>
      intro logs hl
      exact ih _ (MasterLog.session_length_le logs n hl)

/-- C1: rotation invariant of the MasterLog.  For any directory produced
by previous runs and any fresh timestamped filename: (i) after the next
write session at most 5 log files remain; (ii) if the directory already
holds 5 or more log files, construction deletes exactly one existing
file (`logs[0]`), the session creates the new run's file, and exactly 5
files exist afterward. -/
theorem c1_masterlog_rotation (names : List String) (f : String)
    (hf : f ∉ MasterLog.runAll names) :
    (MasterLog.afterWriteSession (some (MasterLog.runAll names)) f).length ≤ 5 ∧
      (5 ≤ (MasterLog.runAll names).length →
        MasterLog.init (some (MasterLog.runAll names)) =
            (MasterLog.runAll names).tail ∧
          (MasterLog.init (some (MasterLog.runAll names))).length =
            (MasterLog.runAll names).length - 1 ∧
          MasterLog.afterWriteSession (some (MasterLog.runAll names)) f =
            (MasterLog.runAll names).tail ++ [f] ∧
          (MasterLog.afterWriteSession (some (MasterLog.runAll names))
            f).length = 5) := by
  have hle := MasterLog.runAll_length_le names
  constructor
  · exact MasterLog.session_length_le _ f hle
  · intro h5
    have hlen : (MasterLog.runAll names).length = 5 := le_antisymm hle h5
    have hinit : MasterLog.init (some (MasterLog.runAll names)) =
        (MasterLog.runAll names).tail := by
      unfold MasterLog.init
      simp [h5]
    have htail : (MasterLog.runAll names).tail.length = 4 := by
      rw [List.length_tail, hlen]
    have hnotmem : f ∉ (MasterLog.runAll names).tail := fun hmem =>
      hf (List.mem_of_mem_tail hmem)
    have hsession : MasterLog.afterWriteSession
        (some (MasterLog.runAll names)) f =
        (MasterLog.runAll names).tail ++ [f] := by
      unfold MasterLog.afterWriteSession
      rw [hinit]
      simp [hnotmem]
    refine ⟨hinit, ?_, hsession, ?_⟩
    · rw [hinit, List.length_tail]
    · rw [hsession]
      simp [htail]

/-- Witness for C1 with the literal filenames of the spec's rotation
test: five previous runs, then a sixth run. -/
theorem c1_masterlog_rotation_witness :
    ("alertLogFile_2024.01.01.00.00.06.log" ∉
        MasterLog.runAll
          ["alertLogFile_2024.01.01.00.00.01.log",
           "alertLogFile_2024.01.01.00.00.02.log",
           "alertLogFile_2024.01.01.00.00.03.log",
           "alertLogFile_2024.01.01.00.00.04.log",
           "alertLogFile_2024.01.01.00.00.05.log"]) ∧
      5 ≤ (MasterLog.runAll
          ["alertLogFile_2024.01.01.00.00.01.log",
           "alertLogFile_2024.01.01.00.00.02.log",
           "alertLogFile_2024.01.01.00.00.03.log",
           "alertLogFile_2024.01.01.00.00.04.log",
           "alertLogFile_2024.01.01.00.00.05.log"]).length ∧
      MasterLog.afterWriteSession
          (some (MasterLog.runAll
            ["alertLogFile_2024.01.01.00.00.01.log",
             "alertLogFile_2024.01.01.00.00.02.log",
             "alertLogFile_2024.01.01.00.00.03.log",
             "alertLogFile_2024.01.01.00.00.04.log",
             "alertLogFile_2024.01.01.00.00.05.log"]))
          "alertLogFile_2024.01.01.00.00.06.log" =
        ["alertLogFile_2024.01.01.00.00.02.log",
         "alertLogFile_2024.01.01.00.00.03.log",
         "alertLogFile_2024.01.01.00.00.04.log",
         "alertLogFile_2024.01.01.00.00.05.log",
         "alertLogFile_2024.01.01.00.00.06.log"] ∧
      (MasterLog.afterWriteSession
          (some (MasterLog.runAll
            ["alertLogFile_2024.01.01.00.00.01.log",
             "alertLogFile_2024.01.01.00.00.02.log",
             "alertLogFile_2024.01.01.00.00.03.log",
             "alertLogFile_2024.01.01.00.00.04.log",
             "alertLogFile_2024.01.01.00.00.05.log"]))
          "alertLogFile_2024.01.01.00.00.06.log").length = 5 := by
  have hf : "alertLogFile_2024.01.01.00.00.06.log" ∉
      MasterLog.runAll
        ["alertLogFile_2024.01.01.00.00.01.log",
         "alertLogFile_2024.01.01.00.00.02.log",
         "alertLogFile_2024.01.01.00.00.03.log",
         "alertLogFile_2024.01.01.00.00.04.log",
         "alertLogFile_2024.01.01.00.00.05.log"] := by decide
  have h := c1_masterlog_rotation
    ["alertLogFile_2024.01.01.00.00.01.log",
     "alertLogFile_2024.01.01.00.00.02.log",
     "alertLogFile_2024.01.01.00.00.03.log",
     "alertLogFile_2024.01.01.00.00.04.log",
     "alertLogFile_2024.01.01.00.00.05.log"]
    "alertLogFile_2024.01.01.00.00.06.log" hf
  have h5 : 5 ≤ (MasterLog.runAll
      ["alertLogFile_2024.01.01.00.00.01.log",
       "alertLogFile_2024.01.01.00.00.02.log",
       "alertLogFile_2024.01.01.00.00.03.log",
       "alertLogFile_2024.01.01.00.00.04.log",
       "alertLogFile_2024.01.01.00.00.05.log"]).length := by decide
  refine ⟨hf, h5, ?_, (h.2 h5).2.2.2⟩
  rw [(h.2 h5).2.2.1]
  decide

/-- C5: when message resolution succeeds, `warn` either hands the
structured record `{code, context, message, trace}` to the stderr
target's `receiveWarning` and returns (no text formatting, no logging),
or — when stderr has no such capability — emits exactly one
warning-level line containing the code and the message and one
debug-level line containing the traceback. -/
theorem c5_warn_dispatch (w : StdWarnings) (stack : List String)
    (code : Nat) (obj : Option String) (msg : String) (trace : List String)
    (m : String) (hm : resolveMsg w code msg = some m) :
    warn w true stack code obj msg trace =
        ([LogEvent.received code obj m (resolveTrace stack trace)], none) ∧
      warn w false stack code obj msg trace =
        ([LogEvent.warning (warnStr code m),
          LogEvent.debug (traceStr code (resolveTrace stack trace))], none) ∧
      (toString code).data <:+: (warnStr code m).data ∧
      m.data <:+: (warnStr code m).data ∧
      (String.join (resolveTrace stack trace)).data <:+:
        (traceStr code (resolveTrace stack trace)).data := by
  refine ⟨?_, ?_, ?_, ?_, ?_⟩
  · simp [warn, hm]
  · simp [warn, hm]
  · exact ⟨[], (": " ++ m).data, by simp [warnStr, String.data_append]⟩
  · exact ⟨(toString code ++ ": ").data, [],
      by simp [warnStr, String.data_append]⟩
  · exact ⟨("Warning trace (" ++ toString code ++ "):\n").data, [],
      by simp [traceStr, String.data_append]⟩

/-- Witness for C5: `warn(2002)` with no override message, on both kinds
of stderr target. -/
theorem c5_warn_dispatch_witness :
    resolveMsg [(2002, { msg := "Syntax error compiling", info := "i" })]
        2002 "" = some "Syntax error compiling" ∧
      warn [(2002, { msg := "Syntax error compiling", info := "i" })] true
          ["frame1\n"] 2002 none "" [] =
        ([LogEvent.received 2002 none "Syntax error compiling" ["frame1\n"]],
          none) ∧
      warn [(2002, { msg := "Syntax error compiling", info := "i" })] false
          ["frame1\n"] 2002 none "" [] =
        ([LogEvent.warning "2002: Syntax error compiling",
          LogEvent.debug "Warning trace (2002):\nframe1\n"], none) := by
  have h := c5_warn_dispatch
    [(2002, { msg := "Syntax error compiling", info := "i" })]
    ["frame1\n"] 2002 none "" [] "Syntax error compiling" rfl
  exact ⟨rfl, h.1, h.2.1⟩

/-- C6: `setStdErr` installs the handler as stderr remembering the
previous target T; a following `unsetStdErr` puts stderr back to exactly
T; and `unsetStdErr` leaves stderr unchanged whenever the handler is not
the current stderr target. -/
theorem c6_set_unset_restores (s : ErrSys) :
    (ErrSys.setStdErr s).stderr = Target.handlerT ∧
      (ErrSys.setStdErr s).handler.origErr = some s.stderr ∧
      ErrSys.unsetStdErr (ErrSys.setStdErr s) =
        Except.ok { stderr := s.stderr,
                    handler := { s.handler with origErr := some s.stderr } } ∧
      (s.stderr ≠ Target.handlerT → ErrSys.unsetStdErr s = Except.ok s) := by
  refine ⟨rfl, rfl, ?_, ?_⟩
  · simp [ErrSys.setStdErr, ErrSys.unsetStdErr]
  · intro h
    simp [ErrSys.unsetStdErr, h]

/-- Witness for C6 with a concrete previous stderr target. -/
theorem c6_set_unset_restores_witness :
    ErrSys.unsetStdErr (ErrSys.setStdErr
        { stderr := Target.otherT 0, handler := Handler.init }) =
      Except.ok { stderr := Target.otherT 0,
                  handler := { Handler.init with
                                origErr := some (Target.otherT 0) } } ∧
      ErrSys.unsetStdErr { stderr := Target.otherT 0, handler := Handler.init } =
        Except.ok { stderr := Target.otherT 0, handler := Handler.init } :=
  ⟨(c6_set_unset_restores
        { stderr := Target.otherT 0, handler := Handler.init }).2.2.1,
    (c6_set_unset_restores
        { stderr := Target.otherT 0, handler := Handler.init }).2.2.2
      (by decide)⟩

/-- A `setStdErr` / `unsetStdErr` call on the handler, as issued by an
arbitrary later client; the `unsetStdErr` branch cannot raise in the
states C10 quantifies over (`origErr` is always assigned there). -/
inductive HOp where
  | setOp
  | unsetOp
deriving DecidableEq, Repr

def applyOp (s : ErrSys) : HOp → ErrSys
  | HOp.setOp => ErrSys.setStdErr s
  | HOp.unsetOp =>
      match ErrSys.unsetStdErr s with
      | Except.ok s1 => s1
      | Except.error _ => s

def applyOps (s : ErrSys) (ops : List HOp) : ErrSys :=
  ops.foldl applyOp s

/-- Once stderr is the handler and its remembered previous target is the
handler itself, no sequence of set/unset calls ever changes either. -/
theorem applyOps_locked (ops : List HOp) (s : ErrSys)
    (h1 : s.stderr = Target.handlerT)
    (h2 : s.handler.origErr = some Target.handlerT) :
    (applyOps s ops).stderr = Target.handlerT ∧
      (applyOps s ops).handler.origErr = some Target.handlerT := by
  induction ops generalizing s with
  | nil => exact ⟨h1, h2⟩
  | cons op t ih =>
      cases op with
      | setOp =>
          exact ih (ErrSys.setStdErr s) rfl (by simp [ErrSys.setStdErr, h1])
      | unsetOp =>
          have : applyOp s HOp.unsetOp = s := by
            simp [applyOp, ErrSys.unsetStdErr, h1, h2]
            cases s with
            | mk st hd => simp_all
          simpa [applyOps, this] using ih s h1 h2

/-- C10: a second `setStdErr` while already installed overwrites the
remembered previous target with the handler itself; from then on every
`unsetStdErr` leaves stderr pointing at the handler, and no sequence of
set/unset calls can ever make stderr the pre-install target again. -/
theorem c10_reentrant_install (s : ErrSys) (ops : List HOp) :
    (ErrSys.setStdErr (ErrSys.setStdErr s)).handler.origErr =
        some Target.handlerT ∧
      (ErrSys.setStdErr (ErrSys.setStdErr s)).stderr = Target.handlerT ∧
      ErrSys.unsetStdErr (ErrSys.setStdErr (ErrSys.setStdErr s)) =
        Except.ok (ErrSys.setStdErr (ErrSys.setStdErr s)) ∧
      (applyOps (ErrSys.setStdErr (ErrSys.setStdErr s)) ops).stderr =
        Target.handlerT ∧
      (s.stderr ≠ Target.handlerT →
        (applyOps (ErrSys.setStdErr (ErrSys.setStdErr s)) ops).stderr ≠
          s.stderr) := by
  have hlock := applyOps_locked ops (ErrSys.setStdErr (ErrSys.setStdErr s))
    rfl rfl
  refine ⟨rfl, rfl, ?_, hlock.1, ?_⟩
  · simp [ErrSys.setStdErr, ErrSys.unsetStdErr]
  · intro h
    rw [hlock.1]
    exact fun he => h he.symm

/-- Witness for C10: double install over a concrete prior target, then a
concrete sequence of unset/set/unset calls. -/
theorem c10_reentrant_install_witness :
    (ErrSys.setStdErr (ErrSys.setStdErr
        { stderr := Target.otherT 7, handler := Handler.init })).handler.origErr =
        some Target.handlerT ∧
      (applyOps (ErrSys.setStdErr (ErrSys.setStdErr
          { stderr := Target.otherT 7, handler := Handler.init }))
          [HOp.unsetOp, HOp.setOp, HOp.unsetOp, HOp.unsetOp]).stderr =
        Target.handlerT ∧
      (applyOps (ErrSys.setStdErr (ErrSys.setStdErr
          { stderr := Target.otherT 7, handler := Handler.init }))
          [HOp.unsetOp, HOp.setOp, HOp.unsetOp, HOp.unsetOp]).stderr ≠
        Target.otherT 7 := by
  have h := c10_reentrant_install
    { stderr := Target.otherT 7, handler := Handler.init }
    [HOp.unsetOp, HOp.setOp, HOp.unsetOp, HOp.unsetOp]
  exact ⟨h.1, h.2.2.2.1, h.2.2.2.2 (by decide)⟩

/-- C9 counterexample: on a freshly constructed handler (whose
`autoFlush` is `True` by `__init__`), `write("x")` does NOT leave the
raw record pending unprinted — the embedded auto-flush prints it and
clears the list immediately. -/
theorem c9_accumulate_counterexample :
    ¬ ((Handler.init.write "x").1.errList =
          Handler.init.errList ++ [ErrItem.str "x"] ∧
        (Handler.init.write "x").2 = []) := by
  decide

/-- C9 (amended): `receiveWarning` appends a structured record that
stays pending until a flush; `flush` prints the pending records in
insertion order and clears the list; `write` appends a raw record and —
only when `autoFlush` is off — leaves it pending, while with `autoFlush`
on (the `__init__` default) it immediately flushes, printing all pending
records in order and clearing the list. -/
theorem c9_accumulate_until_flush (h : Handler) (code : Nat)
    (obj : Option String) (msg : String) (trace : List String)
    (text : String) :
    (h.receiveWarning code obj msg trace).errList =
        h.errList ++ [ErrItem.record code obj msg trace] ∧
      (h.receiveWarning code obj msg trace).autoFlush = h.autoFlush ∧
      h.flush = ({ h with errList := [] }, h.errList) ∧
      (h.autoFlush = false →
        h.write text = ({ h with errList := h.errList ++ [ErrItem.str text] }, [])) ∧
      (h.autoFlush = true →
        h.write text = ({ h with errList := [] }, h.errList ++ [ErrItem.str text])) := by
  refine ⟨rfl, rfl, rfl, ?_, ?_⟩
  · intro haf
    simp [Handler.write, Handler.flush, haf]
  · intro haf
    simp [Handler.write, Handler.flush, haf]

/-- Witness for C9 (amended) on two concrete handlers, one per
`autoFlush` setting. -/
theorem c9_accumulate_until_flush_witness :
    (Handler.receiveWarning { errList := [], autoFlush := false, origErr := none }
        1001 none "Dropped a frame" ["t"]).errList =
        [ErrItem.record 1001 none "Dropped a frame" ["t"]] ∧
      Handler.write { errList := [], autoFlush := false, origErr := none } "boom" =
        ({ errList := [ErrItem.str "boom"], autoFlush := false, origErr := none }, []) ∧
      Handler.write { errList := [ErrItem.str "a"], autoFlush := true, origErr := none } "boom" =
        ({ errList := [], autoFlush := true, origErr := none },
          [ErrItem.str "a", ErrItem.str "boom"]) := by
  have h1 := c9_accumulate_until_flush
    { errList := [], autoFlush := false, origErr := none }
    1001 none "Dropped a frame" ["t"] "boom"
  have h2 := c9_accumulate_until_flush
    { errList := [ErrItem.str "a"], autoFlush := true, origErr := none }
    1001 none "Dropped a frame" ["t"] "boom"
  exact ⟨h1.1, h1.2.2.2.1 rfl, h2.2.2.2.2 rfl⟩

/-- C4 counterexample: a handler that is the current stderr target but
whose `origErr` attribute was never assigned (stderr was pointed at the
handler without going through `setStdErr`): `__del__` runs
`self.flush(); self.unsetStdErr()` with no exception handling, so the
`AttributeError` raised inside `unsetStdErr` propagates out of the
teardown body instead of being swallowed, and stderr is not restored. -/
theorem c4_teardown_counterexample :
    ErrSys.del { stderr := Target.handlerT,
                 handler := { errList := [], autoFlush := true, origErr := none } } =
      Except.error (PyError.attributeError "origErr") := by
  rfl

/-- C4 (amended): teardown runs `flush` then `unsetStdErr`, in that
order, with no exception handling of its own.  Whenever `unsetStdErr`
cannot fail — the handler is not the current stderr target, or its
remembered previous target is assigned (true of every state reached via
`setStdErr`) — teardown succeeds: pending records are printed and
cleared, and stderr is restored to the remembered target (or left
unchanged when the handler was not installed).  An internal failure,
however, propagates out of the teardown body rather than being
swallowed. -/
theorem c4_teardown_flushes_then_restores (s : ErrSys) :
    (∀ t, s.stderr = Target.handlerT → s.handler.origErr = some t →
        ErrSys.del s =
          Except.ok ({ stderr := t, handler := { s.handler with errList := [] } },
            s.handler.errList)) ∧
      (s.stderr ≠ Target.handlerT →
        ErrSys.del s =
          Except.ok ({ s with handler := { s.handler with errList := [] } },
            s.handler.errList)) := by
  constructor
  · intro t hin horig
    simp [ErrSys.del, Handler.flush, ErrSys.unsetStdErr, hin, horig]
  · intro hout
    simp [ErrSys.del, Handler.flush, ErrSys.unsetStdErr, hout]

/-- Witness for C4 (amended): teardown of an installed handler with a
remembered target, and of an uninstalled handler. -/
theorem c4_teardown_flushes_then_restores_witness :
    ErrSys.del { stderr := Target.handlerT, handler := { errList := [ErrItem.str "a"], autoFlush := true, origErr := some (Target.otherT 3) } } =
      Except.ok ({ stderr := Target.otherT 3, handler := { errList := [], autoFlush := true, origErr := some (Target.otherT 3) } }, [ErrItem.str "a"]) ∧
      ErrSys.del { stderr := Target.otherT 1, handler := Handler.init } =
        Except.ok ({ stderr := Target.otherT 1, handler := { errList := [], autoFlush := true, origErr := none } }, []) := by
  have h1 := (c4_teardown_flushes_then_restores
    { stderr := Target.handlerT, handler := { errList := [ErrItem.str "a"], autoFlush := true, origErr := some (Target.otherT 3) } }).1
    (Target.otherT 3) rfl rfl
  have h2 := (c4_teardown_flushes_then_restores
    { stderr := Target.otherT 1, handler := Handler.init }).2 (by decide)
  exact ⟨h1, h2⟩
